import Mathlib

/-!
Verification of the RoadBuddy backend (src/Backend/app.py) against its
natural-language specification.

The Flask app keeps three in-memory lists (`trips`, `bookings`, `users`)
and exposes search, trip creation, seat booking and per-user booking
lookup.  This file shallowly embeds those data structures and handlers:

* Python dicts for trips/bookings/users become Lean structures with the
  same field names.
* Python ints are `Int` (unbounded), Python floats that the handlers use
  only through literals, `*` and field copies are modelled as `ℚ`.
* The nondeterministic inputs of a handler (`uuid.uuid4()`,
  `datetime.now()`) are passed as explicit string parameters.
* A handler's JSON-and-status-code result is an inductive response value;
  its side effects on the module-level lists are returned as a new
  `ServerState`.
-/

/-- Python's `str.lower()` applied character-wise (`.lower()` in the
handlers is only ever used for case-insensitive comparison, so the
character-wise model is adequate). -/
def pyLower (s : String) : String := String.mk (s.data.map Char.toLower)

/-- Python's substring test `needle in hay` on strings: the needle's
characters occur contiguously inside the hay's characters. -/
def strIn (needle hay : String) : Bool := decide (needle.data <:+: hay.data)

/-- A trip record, mirroring the dict shape built in app.py (seed data
lines 11-63 and `create_trip` lines 151-167). -/
structure Trip where
  id : String
  driverName : String
  driverRating : ℚ
  route : String
  departureCity : String
  destinationCity : String
  departureTime : String
  availableSeats : Int
  totalSeats : Int
  pricePerPerson : ℚ
  estimatedDuration : String
  carModel : String
  amenities : List String
  pickupPoints : List String
  description : String
deriving DecidableEq, Repr

/-- A booking record, mirroring the dict built in `book_trip`
(app.py lines 194-202). -/
structure Booking where
  id : String
  tripId : String
  userId : String
  passengerCount : Int
  status : String
  bookingTime : String
  totalPrice : ℚ
deriving DecidableEq, Repr

/-- A user record, mirroring the seed `users` list (app.py lines 66-75). -/
structure User where
  id : String
  name : String
  email : String
  phone : String
  rating : ℚ
  tripsCompleted : Int
deriving DecidableEq, Repr

/-- The module-level mutable lists of app.py. -/
structure ServerState where
  trips : List Trip
  bookings : List Booking
  users : List User
deriving DecidableEq, Repr

/-- The JSON body posted to `/api/trips/<trip_id>/book`: `data.get` with a
default models each optional key, with the `int(...)` coercion of
`passengerCount` already performed (a body whose coercion raises is caught
by the handler's `except` and is out of scope of the booking claims). -/
structure BookRequest where
  userId : Option String
  passengerCount : Option Int
deriving DecidableEq, Repr

/-- Result of `book_trip`: either an error JSON `{success: false, error}`
with its HTTP status, or the 201 success JSON carrying the new booking. -/
inductive BookResponse where
  | failure (httpStatus : Nat) (error : String)
  | created (httpStatus : Nat) (message : String) (booking : Booking)
deriving DecidableEq, Repr

/-- The `success` field of the response JSON. -/
def BookResponse.successFlag : BookResponse → Bool
  | .failure _ _ => false
  | .created _ _ _ => true

/-- Seed trip "1" (app.py lines 12-28). -/
def trip1 : Trip :=
  { id := "1"
    driverName := "Sarah M."
    driverRating := (4.8 : ℚ)
    route := "New York → Boston"
    departureCity := "New York"
    destinationCity := "Boston"
    departureTime := "2025-06-15T09:00:00Z"
    availableSeats := 3
    totalSeats := 4
    pricePerPerson := (45.0 : ℚ)
    estimatedDuration := "4h 30m"
    carModel := "Honda Accord"
    amenities := ["WiFi", "AC", "Music"]
    pickupPoints := ["Penn Station", "Times Square"]
    description := "Comfortable ride to Boston with stops in Manhattan" }

/-- Seed trip "2" (app.py lines 29-45). -/
def trip2 : Trip :=
  { id := "2"
    driverName := "John D."
    driverRating := (4.6 : ℚ)
    route := "Boston → New York"
    departureCity := "Boston"
    destinationCity := "New York"
    departureTime := "2025-06-16T14:00:00Z"
    availableSeats := 2
    totalSeats := 4
    pricePerPerson := (50.0 : ℚ)
    estimatedDuration := "4h 45m"
    carModel := "Toyota Camry"
    amenities := ["AC", "Phone Charging"]
    pickupPoints := ["South Station", "Back Bay"]
    description := "Direct route to NYC with comfortable seating" }

/-- Seed trip "3" (app.py lines 46-62). -/
def trip3 : Trip :=
  { id := "3"
    driverName := "Mike R."
    driverRating := (4.9 : ℚ)
    route := "New York → Philadelphia"
    departureCity := "New York"
    destinationCity := "Philadelphia"
    departureTime := "2025-06-17T11:00:00Z"
    availableSeats := 1
    totalSeats := 4
    pricePerPerson := (35.0 : ℚ)
    estimatedDuration := "2h 15m"
    carModel := "BMW 3 Series"
    amenities := ["WiFi", "AC", "Music", "Snacks"]
    pickupPoints := ["Penn Station"]
    description := "Quick trip to Philly in luxury vehicle" }

/-- The seed demo user (app.py lines 67-74). -/
def demoUser : User :=
  { id := "demo-user"
    name := "Demo User"
    email := "demo@roadbuddy.com"
    phone := "+1-555-0123"
    rating := (4.7 : ℚ)
    tripsCompleted := 15 }

/-- The process-start state: three seed trips, no bookings, one user. -/
def initialState : ServerState :=
  { trips := [trip1, trip2, trip3], bookings := [], users := [demoUser] }

/-- In-place mutation of the dict returned by
`next((t for t in trips if t['id'] == trip_id), None)`: the first
list element whose id matches is replaced by its updated copy, the
rest of the list is untouched. -/
def updateFirstTrip : List Trip → String → (Trip → Trip) → List Trip
  | [], _, _ => []
  | t :: ts, tid, f =>
    if t.id == tid then f t :: ts else t :: updateFirstTrip ts tid f

/-- `book_trip` (app.py lines 179-215): resolve the trip, gate on
`availableSeats <= 0`, build the booking, append it, decrement the seats.
`newId` stands for `str(uuid.uuid4())` and `now` for
`datetime.now().isoformat()`. -/
def book_trip (st : ServerState) (trip_id : String) (data : BookRequest)
    (newId now : String) : BookResponse × ServerState :=
  match st.trips.find? (fun t => t.id == trip_id) with
  | none => (.failure 404 "Trip not found", st)
  | some trip =>
    if trip.availableSeats ≤ 0 then
      (.failure 400 "No seats available", st)
    else
      let booking : Booking :=
        { id := newId
          tripId := trip_id
          userId := data.userId.getD "demo-user"
          passengerCount := data.passengerCount.getD 1
          status := "confirmed"
          bookingTime := now
          totalPrice := trip.pricePerPerson * ((data.passengerCount.getD 1 : Int) : ℚ) }
      (.created 201 "Trip booked successfully" booking,
       { st with
          trips := updateFirstTrip st.trips trip_id
            (fun t => { t with availableSeats := t.availableSeats - data.passengerCount.getD 1 })
          bookings := st.bookings ++ [booking] })

/-- The free-text predicate of `search_trips` (app.py lines 120-123):
`query` is already lower-cased by the caller. -/
def matchesQuery (query : String) (t : Trip) : Bool :=
  strIn query (pyLower t.route) ||
  strIn query (pyLower t.departureCity) ||
  strIn query (pyLower t.destinationCity)

/-- `search_trips` (app.py lines 110-144): lower-case the three query
parameters, then apply each non-empty filter in turn (`if query:` is
Python string truthiness, i.e. non-emptiness).  Returns the filtered
list; the handler also reports its length and echoes the query. -/
def search_trips (trips : List Trip) (q fromCity toCity : String) : List Trip :=
  let query := pyLower q
  let departure := pyLower fromCity
  let destination := pyLower toCity
  let f1 := if query = "" then trips
            else trips.filter (fun t => matchesQuery query t)
  let f2 := if departure = "" then f1
            else f1.filter (fun t => strIn departure (pyLower t.departureCity))
  let f3 := if destination = "" then f2
            else f2.filter (fun t => strIn destination (pyLower t.destinationCity))
  f3

/-- The JSON body posted to `/api/trips`: each `data.get(key, default)`
is modelled by an `Option`, with `int(...)`/`float(...)` coercions of
`seats`/`price` already performed (a non-numeric value raises and is
turned into a 400 by the handler's `except`, out of scope here). -/
structure CreateTripData where
  driverName : Option String
  fromCity : Option String
  toCity : Option String
  departureTime : Option String
  seats : Option Int
  price : Option ℚ
  duration : Option String
  carModel : Option String
  amenities : Option (List String)
  pickupPoints : Option (List String)
  description : Option String
deriving DecidableEq, Repr

/-- `create_trip` (app.py lines 146-177): build the new trip dict,
append it to the trip store and return it (the handler wraps it in a
201 `{success: true, message, trip}` JSON). `newId` stands for
`str(uuid.uuid4())`. -/
def create_trip (st : ServerState) (data : CreateTripData) (newId : String) :
    Trip × ServerState :=
  let new_trip : Trip :=
    { id := newId
      driverName := data.driverName.getD "Anonymous"
      driverRating := (4.5 : ℚ)
      route := data.fromCity.getD "" ++ " → " ++ data.toCity.getD ""
      departureCity := data.fromCity.getD ""
      destinationCity := data.toCity.getD ""
      departureTime := data.departureTime.getD ""
      availableSeats := data.seats.getD 1
      totalSeats := data.seats.getD 1
      pricePerPerson := data.price.getD 0
      estimatedDuration := data.duration.getD "TBD"
      carModel := data.carModel.getD "Standard Vehicle"
      amenities := data.amenities.getD []
      pickupPoints := data.pickupPoints.getD []
      description := data.description.getD "" }
  (new_trip, { st with trips := st.trips ++ [new_trip] })

/-- A booking enriched with its trip, `{**booking, "trip": trip}`
(app.py line 227). -/
structure DetailedBooking where
  booking : Booking
  trip : Trip
deriving DecidableEq, Repr

/-- `get_user_bookings` (app.py lines 217-236): filter the booking store
by user id, attach the referenced trip when it exists (bookings whose
trip is missing are dropped), and report the enriched list with its
length as `count`. -/
def get_user_bookings (st : ServerState) (user_id : String) :
    List DetailedBooking × Nat :=
  let user_bookings := st.bookings.filter (fun b => b.userId == user_id)
  let detailed_bookings := user_bookings.filterMap (fun b =>
    (st.trips.find? (fun t => t.id == b.tripId)).map (fun trip => ⟨b, trip⟩))
  (detailed_bookings, detailed_bookings.length)

/-- A store state exercising the sold-out branch: the second seed trip
with every seat already taken. -/
def soldOutState : ServerState :=
  { trips := [trip1, { trip2 with availableSeats := 0 }]
    bookings := []
    users := [demoUser] }

/-! ## Helper lemmas -/

/-- Lower-casing returns the empty string only on the empty string. -/
theorem pyLower_eq_empty {s : String} (h : pyLower s = "") : s = "" := by
  cases s with
  | mk l =>
    have hd : l.map Char.toLower = [] := congrArg String.data h
    simp at hd
    simp [hd]

/-- A successful `find?` for a trip id splits the list around the first
match, and `updateFirstTrip` rewrites exactly that element. -/
theorem find?_split {l : List Trip} {tid : String} {x : Trip}
    (h : l.find? (fun t => t.id == tid) = some x) :
    ∃ pre post, l = pre ++ x :: post ∧ (∀ y ∈ pre, (y.id == tid) = false) ∧
      x.id = tid ∧
      ∀ f : Trip → Trip, updateFirstTrip l tid f = pre ++ f x :: post := by
  induction l with
  | nil => simp at h
  | cons a as ih =>
    cases ha : (a.id == tid) with
    | true =>
      simp only [List.find?_cons, ha] at h
      obtain rfl : a = x := by injection h
      refine ⟨[], as, rfl, by simp, by simpa using ha, fun f => ?_⟩
      simp [updateFirstTrip, ha]
    | false =>
      simp only [List.find?_cons, ha] at h
      obtain ⟨pre, post, hl, hpre, hx, hupd⟩ := ih h
      refine ⟨a :: pre, post, by simp [hl], ?_, hx, fun f => ?_⟩
      · intro y hy
        rcases List.mem_cons.mp hy with rfl | hy
        · exact ha
        · exact hpre y hy
      · simp [updateFirstTrip, ha, hupd f]

/-- `find?` skips a prefix in which no element matches the trip id. -/
theorem find?_prefix_none {pre : List Trip} {tid : String}
    (hpre : ∀ y ∈ pre, (y.id == tid) = false) (rest : List Trip) :
    (pre ++ rest).find? (fun t => t.id == tid) = rest.find? (fun t => t.id == tid) := by
  induction pre with
  | nil => simp
  | cons a as ih =>
    have ha : (a.id == tid) = false := hpre a (List.mem_cons_self a as)
    rw [List.cons_append]
    simp only [List.find?_cons, ha]
    exact ih (fun y hy => hpre y (List.mem_cons_of_mem a hy))

/-- After updating the first matching trip with an id-preserving function,
`find?` returns the updated trip. -/
theorem find?_updateFirstTrip {l : List Trip} {tid : String} {x : Trip}
    (h : l.find? (fun t => t.id == tid) = some x) (f : Trip → Trip)
    (hf : (f x).id = x.id) :
    (updateFirstTrip l tid f).find? (fun t => t.id == tid) = some (f x) := by
  obtain ⟨pre, post, hl, hpre, hid, hupd⟩ := find?_split h
  rw [hupd f, find?_prefix_none hpre]
  have hbeq : ((f x).id == tid) = true := by simp [hf, hid]
  simp [List.find?_cons, hbeq]

/-- Evaluation of `book_trip` on the success path: the trip is found and
has at least one available seat. -/
theorem book_trip_success_eq (st : ServerState) (tid : String) (trip : Trip)
    (data : BookRequest) (newId now : String)
    (hfind : st.trips.find? (fun t => t.id == tid) = some trip)
    (hpos : 0 < trip.availableSeats) :
    book_trip st tid data newId now =
      (BookResponse.created 201 "Trip booked successfully"
        { id := newId, tripId := tid, userId := data.userId.getD "demo-user",
          passengerCount := data.passengerCount.getD 1, status := "confirmed",
          bookingTime := now,
          totalPrice := trip.pricePerPerson * ((data.passengerCount.getD 1 : Int) : ℚ) },
       { trips := updateFirstTrip st.trips tid
            (fun t => { t with availableSeats := t.availableSeats - data.passengerCount.getD 1 }),
         bookings := st.bookings ++
           [{ id := newId, tripId := tid, userId := data.userId.getD "demo-user",
              passengerCount := data.passengerCount.getD 1, status := "confirmed",
              bookingTime := now,
              totalPrice := trip.pricePerPerson * ((data.passengerCount.getD 1 : Int) : ℚ) }],
         users := st.users }) := by
  simp [book_trip, hfind, if_neg (not_le.mpr hpos)]

/-- Evaluation of `book_trip` when no trip carries the requested id. -/
theorem book_trip_none_eq (st : ServerState) (tid : String)
    (data : BookRequest) (newId now : String)
    (hfind : st.trips.find? (fun t => t.id == tid) = none) :
    book_trip st tid data newId now = (.failure 404 "Trip not found", st) := by
  simp [book_trip, hfind]

/-- Evaluation of `book_trip` when the found trip has no seats left. -/
theorem book_trip_soldout_eq (st : ServerState) (tid : String) (trip : Trip)
    (data : BookRequest) (newId now : String)
    (hfind : st.trips.find? (fun t => t.id == tid) = some trip)
    (hz : trip.availableSeats ≤ 0) :
    book_trip st tid data newId now = (.failure 400 "No seats available", st) := by
  simp [book_trip, hfind, if_pos hz]

/-- A booking reports success only when the trip was found with a
strictly positive seat count. -/
theorem book_trip_success_inv (st : ServerState) (tid : String)
    (data : BookRequest) (newId now : String)
    (h : (book_trip st tid data newId now).1.successFlag = true) :
    ∃ trip, st.trips.find? (fun t => t.id == tid) = some trip ∧
      0 < trip.availableSeats := by
  cases hfind : st.trips.find? (fun t => t.id == tid) with
  | none =>
    rw [book_trip_none_eq st tid data newId now hfind] at h
    simp [BookResponse.successFlag] at h
  | some trip =>
    by_cases hs : trip.availableSeats ≤ 0
    · rw [book_trip_soldout_eq st tid trip data newId now hfind hs] at h
      simp [BookResponse.successFlag] at h
    · exact ⟨trip, rfl, by omega⟩

/-- Projecting the bookings back out of the trip-enriched list yields a
sublist of the bookings it was built from. -/
theorem detailed_map_booking_sublist (trips : List Trip) (l : List Booking) :
    List.Sublist
      ((l.filterMap (fun b => (trips.find? (fun t => t.id == b.tripId)).map
          (fun trip => (⟨b, trip⟩ : DetailedBooking)))).map DetailedBooking.booking)
      l := by
  induction l with
  | nil => simp
  | cons a as ih =>
    rw [List.filterMap_cons]
    cases h : trips.find? (fun t => t.id == a.tripId) with
    | none =>
      simp only [Option.map_none']
      exact ih.cons a
    | some tr =>
      simp only [Option.map_some', List.map_cons]
      exact ih.cons₂ a

/-! ## Claims -/

/-- C1 counterexample: the non-negativity claim fails on the code as
written.  Seed trip "3" has one available seat; booking it with
`passengerCount = 2` succeeds (the handler only gates on
`availableSeats <= 0`, never comparing the requested count with the
remaining seats) and leaves `availableSeats = -1 < 0`. -/
theorem c1_counterexample :
    (book_trip initialState "3" ⟨none, some 2⟩ "b-c1" "2025-01-01T00:00:00").1.successFlag
      = true ∧
    trip3.availableSeats = 1 ∧
    (book_trip initialState "3" ⟨none, some 2⟩ "b-c1" "2025-01-01T00:00:00").2.trips.find?
      (fun t => t.id == "3") = some { trip3 with availableSeats := -1 } ∧
    ¬ (0 ≤ ({ trip3 with availableSeats := -1 } : Trip).availableSeats) :=
  ⟨rfl, rfl, rfl, by decide⟩

/-- C1 (amended): whenever `book_trip` succeeds on a trip with
`availableSeats = N` and coerced `passengerCount = k`, and additionally
`k ≤ N`, the trip's `availableSeats` becomes exactly `N - k`, which is
non-negative. -/
theorem c1_seats_nonneg (st : ServerState) (tid : String) (trip : Trip)
    (data : BookRequest) (newId now : String)
    (hfind : st.trips.find? (fun t => t.id == tid) = some trip)
    (hsucc : (book_trip st tid data newId now).1.successFlag = true)
    (hle : data.passengerCount.getD 1 ≤ trip.availableSeats) :
    (book_trip st tid data newId now).2.trips.find? (fun t => t.id == tid) =
      some { trip with availableSeats :=
        trip.availableSeats - data.passengerCount.getD 1 } ∧
    0 ≤ trip.availableSeats - data.passengerCount.getD 1 := by
  obtain ⟨trip', hfind', hpos⟩ := book_trip_success_inv st tid data newId now hsucc
  rw [hfind] at hfind'
  obtain rfl : trip = trip' := by injection hfind'
  rw [book_trip_success_eq st tid trip data newId now hfind hpos]
  exact ⟨find?_updateFirstTrip hfind _ rfl, by omega⟩

/-- C1 witness: booking seed trip "1" (3 seats) with 2 passengers
satisfies the hypotheses of the amended claim and leaves one seat. -/
theorem c1_witness :
    (book_trip initialState "1" ⟨some "demo-user", some 2⟩ "w1-bk" "w1-t").2.trips.find?
      (fun t => t.id == "1") =
      some { trip1 with availableSeats :=
        trip1.availableSeats -
          (BookRequest.mk (some "demo-user") (some 2)).passengerCount.getD 1 } ∧
    0 ≤ trip1.availableSeats -
        (BookRequest.mk (some "demo-user") (some 2)).passengerCount.getD 1 :=
  c1_seats_nonneg initialState "1" trip1 ⟨some "demo-user", some 2⟩ "w1-bk" "w1-t"
    rfl rfl (by decide)

/-- C2: on a trip with `availableSeats = N > 0` and a request whose
`passengerCount` coerces to `k` with `1 ≤ k ≤ N`, `book_trip` succeeds,
appends to the booking store exactly the record with `totalPrice =
pricePerPerson * k`, status "confirmed", the given trip id and the
request's user id (or "demo-user" when absent), and the trip's
`availableSeats` becomes exactly `N - k`. -/
theorem c2_booking_success (st : ServerState) (tid : String) (trip : Trip)
    (data : BookRequest) (k : Int) (newId now : String)
    (hfind : st.trips.find? (fun t => t.id == tid) = some trip)
    (hk : data.passengerCount = some k)
    (h1 : 1 ≤ k) (h2 : k ≤ trip.availableSeats) :
    (book_trip st tid data newId now).1.successFlag = true ∧
    (book_trip st tid data newId now).1 =
      BookResponse.created 201 "Trip booked successfully"
        { id := newId, tripId := tid, userId := data.userId.getD "demo-user",
          passengerCount := k, status := "confirmed", bookingTime := now,
          totalPrice := trip.pricePerPerson * (k : ℚ) } ∧
    (book_trip st tid data newId now).2.bookings =
      st.bookings ++
        [{ id := newId, tripId := tid, userId := data.userId.getD "demo-user",
           passengerCount := k, status := "confirmed", bookingTime := now,
           totalPrice := trip.pricePerPerson * (k : ℚ) }] ∧
    (book_trip st tid data newId now).2.trips.find? (fun t => t.id == tid) =
      some { trip with availableSeats := trip.availableSeats - k } := by
  have hgd : data.passengerCount.getD 1 = k := by rw [hk]; rfl
  have hpos : 0 < trip.availableSeats := by omega
  rw [book_trip_success_eq st tid trip data newId now hfind hpos]
  rw [hgd]
  exact ⟨rfl, rfl, rfl, by
    have := find?_updateFirstTrip hfind
      (fun t => { t with availableSeats := t.availableSeats - k }) rfl
    simpa using this⟩

/-- C2 witness: booking seed trip "2" (2 seats, price 50) for user
"alice" with 2 passengers. -/
theorem c2_witness :
    (book_trip initialState "2" ⟨some "alice", some 2⟩ "w2-bk" "w2-t").1.successFlag = true ∧
    (book_trip initialState "2" ⟨some "alice", some 2⟩ "w2-bk" "w2-t").1 =
      BookResponse.created 201 "Trip booked successfully"
        { id := "w2-bk", tripId := "2",
          userId := (BookRequest.mk (some "alice") (some 2)).userId.getD "demo-user",
          passengerCount := 2, status := "confirmed", bookingTime := "w2-t",
          totalPrice := trip2.pricePerPerson * ((2 : Int) : ℚ) } ∧
    (book_trip initialState "2" ⟨some "alice", some 2⟩ "w2-bk" "w2-t").2.bookings =
      initialState.bookings ++
        [{ id := "w2-bk", tripId := "2",
           userId := (BookRequest.mk (some "alice") (some 2)).userId.getD "demo-user",
           passengerCount := 2, status := "confirmed", bookingTime := "w2-t",
           totalPrice := trip2.pricePerPerson * ((2 : Int) : ℚ) }] ∧
    (book_trip initialState "2" ⟨some "alice", some 2⟩ "w2-bk" "w2-t").2.trips.find?
      (fun t => t.id == "2") =
      some { trip2 with availableSeats := trip2.availableSeats - 2 } :=
  c2_booking_success initialState "2" trip2 ⟨some "alice", some 2⟩ 2 "w2-bk" "w2-t"
    rfl rfl (by decide) (by decide)

/-- C3: booking a trip whose `availableSeats` is zero or negative fails
with HTTP 400, `success: false` and error "No seats available", appends
no booking and leaves the whole state (in particular the trip list)
unchanged. -/
theorem c3_no_seats (st : ServerState) (tid : String) (trip : Trip)
    (data : BookRequest) (newId now : String)
    (hfind : st.trips.find? (fun t => t.id == tid) = some trip)
    (hz : trip.availableSeats ≤ 0) :
    book_trip st tid data newId now = (BookResponse.failure 400 "No seats available", st) ∧
    (book_trip st tid data newId now).1.successFlag = false ∧
    (book_trip st tid data newId now).2.bookings = st.bookings ∧
    (book_trip st tid data newId now).2.trips = st.trips := by
  have he := book_trip_soldout_eq st tid trip data newId now hfind hz
  rw [he]
  exact ⟨rfl, rfl, rfl, rfl⟩

/-- C3 witness: booking trip "2" of the sold-out state (0 seats). -/
theorem c3_witness :
    book_trip soldOutState "2" ⟨none, some 1⟩ "w3-bk" "w3-t" =
      (BookResponse.failure 400 "No seats available", soldOutState) ∧
    (book_trip soldOutState "2" ⟨none, some 1⟩ "w3-bk" "w3-t").1.successFlag = false ∧
    (book_trip soldOutState "2" ⟨none, some 1⟩ "w3-bk" "w3-t").2.bookings =
      soldOutState.bookings ∧
    (book_trip soldOutState "2" ⟨none, some 1⟩ "w3-bk" "w3-t").2.trips =
      soldOutState.trips :=
  c3_no_seats soldOutState "2" { trip2 with availableSeats := 0 } ⟨none, some 1⟩
    "w3-bk" "w3-t" rfl (by decide)

/-- C4: booking a trip id absent from the trip store returns HTTP 404
with `success: false` and error "Trip not found", and mutates neither
the trip store nor the booking store nor the user directory. -/
theorem c4_not_found (st : ServerState) (tid : String)
    (data : BookRequest) (newId now : String)
    (hfind : st.trips.find? (fun t => t.id == tid) = none) :
    book_trip st tid data newId now = (BookResponse.failure 404 "Trip not found", st) ∧
    (book_trip st tid data newId now).1.successFlag = false ∧
    (book_trip st tid data newId now).2.trips = st.trips ∧
    (book_trip st tid data newId now).2.bookings = st.bookings ∧
    (book_trip st tid data newId now).2.users = st.users := by
  have he := book_trip_none_eq st tid data newId now hfind
  rw [he]
  exact ⟨rfl, rfl, rfl, rfl, rfl⟩

/-- C4 witness: booking the unknown id "missing-trip" on the seed state. -/
theorem c4_witness :
    book_trip initialState "missing-trip" ⟨none, none⟩ "w4-bk" "w4-t" =
      (BookResponse.failure 404 "Trip not found", initialState) ∧
    (book_trip initialState "missing-trip" ⟨none, none⟩ "w4-bk" "w4-t").1.successFlag = false ∧
    (book_trip initialState "missing-trip" ⟨none, none⟩ "w4-bk" "w4-t").2.trips =
      initialState.trips ∧
    (book_trip initialState "missing-trip" ⟨none, none⟩ "w4-bk" "w4-t").2.bookings =
      initialState.bookings ∧
    (book_trip initialState "missing-trip" ⟨none, none⟩ "w4-bk" "w4-t").2.users =
      initialState.users :=
  c4_not_found initialState "missing-trip" ⟨none, none⟩ "w4-bk" "w4-t" rfl

/-- C5: a search with a non-empty free-text query and empty city filters
returns exactly the trips whose lower-cased route, departure city or
destination city contains the lower-cased query as a substring — every
returned trip matches, no matching trip is omitted, and the relative
insertion order is preserved (the result is a sublist of the store). -/
theorem c5_search_freetext (trips : List Trip) (q : String) (hq : q ≠ "") :
    search_trips trips q "" "" = trips.filter (fun t => matchesQuery (pyLower q) t) ∧
    (∀ t ∈ search_trips trips q "" "", t ∈ trips ∧ matchesQuery (pyLower q) t = true) ∧
    (∀ t ∈ trips, matchesQuery (pyLower q) t = true → t ∈ search_trips trips q "" "") ∧
    List.Sublist (search_trips trips q "" "") trips := by
  have hq' : pyLower q ≠ "" := fun h => hq (pyLower_eq_empty h)
  have he : search_trips trips q "" "" =
      trips.filter (fun t => matchesQuery (pyLower q) t) := by
    unfold search_trips
    have h0 : pyLower "" = "" := rfl
    simp [h0, hq']
  refine ⟨he, ?_, ?_, ?_⟩
  · intro t ht
    rw [he] at ht
    exact ⟨(List.mem_filter.mp ht).1, (List.mem_filter.mp ht).2⟩
  · intro t ht hm
    rw [he]
    exact List.mem_filter.mpr ⟨ht, hm⟩
  · rw [he]
    exact List.filter_sublist trips

/-- C5 witness: searching the seed store for "Boston". -/
theorem c5_witness :
    (search_trips initialState.trips "Boston" "" "" =
      initialState.trips.filter (fun t => matchesQuery (pyLower "Boston") t)) ∧
    (∀ t ∈ search_trips initialState.trips "Boston" "" "",
      t ∈ initialState.trips ∧ matchesQuery (pyLower "Boston") t = true) ∧
    (∀ t ∈ initialState.trips, matchesQuery (pyLower "Boston") t = true →
      t ∈ search_trips initialState.trips "Boston" "" "") ∧
    List.Sublist (search_trips initialState.trips "Boston" "" "") initialState.trips :=
  c5_search_freetext initialState.trips "Boston" (by decide)

/-- C6: a search with all three filters empty returns the full trip
list in its original insertion order. -/
theorem c6_search_empty (trips : List Trip) :
    search_trips trips "" "" "" = trips := by
  unfold search_trips
  have h0 : pyLower "" = "" := rfl
  simp [h0]

/-- C7: the trip built by `create_trip` has route label
`"<from> → <to>"`, the fixed placeholder driver rating 4.5, and
`availableSeats = totalSeats =` the integer-coerced input seat count
(default 1); it is appended to the trip store and returned, and the
booking store and user directory are untouched. -/
theorem c7_create_trip (st : ServerState) (data : CreateTripData) (newId : String) :
    (create_trip st data newId).1.route =
      data.fromCity.getD "" ++ " → " ++ data.toCity.getD "" ∧
    (create_trip st data newId).1.driverRating = (4.5 : ℚ) ∧
    (create_trip st data newId).1.availableSeats = data.seats.getD 1 ∧
    (create_trip st data newId).1.totalSeats = data.seats.getD 1 ∧
    (create_trip st data newId).2.trips = st.trips ++ [(create_trip st data newId).1] ∧
    (create_trip st data newId).2.bookings = st.bookings ∧
    (create_trip st data newId).2.users = st.users :=
  ⟨rfl, rfl, rfl, rfl, rfl, rfl, rfl⟩

/-- C8: the user-booking lookup reports `count` equal to the length of
the returned list; every returned entry is a stored booking of the given
user enriched with the trip that `find?` resolves for its trip id; every
stored booking of that user whose trip resolves appears in the result;
and the result respects the booking store's insertion order (bookings
whose trip id does not resolve are silently dropped). -/
theorem c8_user_bookings (st : ServerState) (uid : String) :
    (get_user_bookings st uid).2 = (get_user_bookings st uid).1.length ∧
    (∀ db ∈ (get_user_bookings st uid).1,
       db.booking ∈ st.bookings ∧ db.booking.userId = uid ∧
       st.trips.find? (fun t => t.id == db.booking.tripId) = some db.trip) ∧
    (∀ b ∈ st.bookings, b.userId = uid →
       ∀ tr : Trip, st.trips.find? (fun t => t.id == b.tripId) = some tr →
         (⟨b, tr⟩ : DetailedBooking) ∈ (get_user_bookings st uid).1) ∧
    List.Sublist ((get_user_bookings st uid).1.map DetailedBooking.booking) st.bookings := by
  refine ⟨rfl, ?_, ?_, ?_⟩
  · intro db hdb
    unfold get_user_bookings at hdb
    simp only at hdb
    obtain ⟨b, hbmem, hfb⟩ := List.mem_filterMap.mp hdb
    obtain ⟨hb, hbuid⟩ := List.mem_filter.mp hbmem
    obtain ⟨tr, htr, heq⟩ := Option.map_eq_some'.mp hfb
    subst heq
    exact ⟨hb, by simpa using hbuid, htr⟩
  · intro b hb hbuid tr htr
    unfold get_user_bookings
    simp only
    exact List.mem_filterMap.mpr
      ⟨b, List.mem_filter.mpr ⟨hb, by simp [hbuid]⟩, by simp [htr]⟩
  · have h1 := detailed_map_booking_sublist st.trips
      (st.bookings.filter (fun b => b.userId == uid))
    exact h1.trans (List.filter_sublist st.bookings)

/-- C9: a successful booking leaves the user directory unchanged,
appends exactly one record to the booking store, deletes no trip
(the list keeps its length), and rewrites only the first trip whose id
matches — replacing it by the same record with only `availableSeats`
decremented — while every trip before and after it is untouched. -/
theorem c9_frame (st : ServerState) (tid : String) (data : BookRequest) (newId now : String)
    (hsucc : (book_trip st tid data newId now).1.successFlag = true) :
    (book_trip st tid data newId now).2.users = st.users ∧
    (∃ bk, (book_trip st tid data newId now).2.bookings = st.bookings ++ [bk]) ∧
    (book_trip st tid data newId now).2.trips.length = st.trips.length ∧
    ∃ pre x post,
      st.trips = pre ++ x :: post ∧
      (∀ y ∈ pre, (y.id == tid) = false) ∧
      x.id = tid ∧
      (book_trip st tid data newId now).2.trips =
        pre ++ { x with availableSeats :=
          x.availableSeats - data.passengerCount.getD 1 } :: post := by
  obtain ⟨trip, hfind, hpos⟩ := book_trip_success_inv st tid data newId now hsucc
  obtain ⟨pre, post, hl, hpre, hid, hupd⟩ := find?_split hfind
  rw [book_trip_success_eq st tid trip data newId now hfind hpos]
  refine ⟨rfl, ⟨_, rfl⟩, ?_, pre, trip, post, hl, hpre, hid, ?_⟩
  · rw [hupd _, hl]
    simp
  · exact hupd _

/-- C9 witness: booking one seat on seed trip "1". -/
theorem c9_witness :
    (book_trip initialState "1" ⟨none, some 1⟩ "w9-bk" "w9-t").2.users =
      initialState.users ∧
    (∃ bk, (book_trip initialState "1" ⟨none, some 1⟩ "w9-bk" "w9-t").2.bookings =
      initialState.bookings ++ [bk]) ∧
    (book_trip initialState "1" ⟨none, some 1⟩ "w9-bk" "w9-t").2.trips.length =
      initialState.trips.length ∧
    ∃ pre x post,
      initialState.trips = pre ++ x :: post ∧
      (∀ y ∈ pre, (y.id == "1") = false) ∧
      x.id = "1" ∧
      (book_trip initialState "1" ⟨none, some 1⟩ "w9-bk" "w9-t").2.trips =
        pre ++ { x with availableSeats :=
          x.availableSeats - (BookRequest.mk none (some 1)).passengerCount.getD 1 } :: post :=
  c9_frame initialState "1" ⟨none, some 1⟩ "w9-bk" "w9-t" rfl

/-- C10: a request whose `passengerCount` coerces to `k ≤ 0` is accepted
whenever the trip has `availableSeats > 0`: the booking is recorded with
`passengerCount = k` and `totalPrice = pricePerPerson * k`, and the
trip's `availableSeats` becomes `availableSeats - k` — unchanged when
`k = 0` and strictly larger when `k < 0`. -/
theorem c10_nonpositive_count (st : ServerState) (tid : String) (trip : Trip)
    (data : BookRequest) (k : Int) (newId now : String)
    (hfind : st.trips.find? (fun t => t.id == tid) = some trip)
    (hpos : 0 < trip.availableSeats)
    (hk : data.passengerCount = some k) (_hk0 : k ≤ 0) :
    (book_trip st tid data newId now).1 =
      BookResponse.created 201 "Trip booked successfully"
        { id := newId, tripId := tid, userId := data.userId.getD "demo-user",
          passengerCount := k, status := "confirmed", bookingTime := now,
          totalPrice := trip.pricePerPerson * (k : ℚ) } ∧
    (book_trip st tid data newId now).2.bookings =
      st.bookings ++
        [{ id := newId, tripId := tid, userId := data.userId.getD "demo-user",
           passengerCount := k, status := "confirmed", bookingTime := now,
           totalPrice := trip.pricePerPerson * (k : ℚ) }] ∧
    (book_trip st tid data newId now).2.trips.find? (fun t => t.id == tid) =
      some { trip with availableSeats := trip.availableSeats - k } ∧
    (k = 0 → trip.availableSeats - k = trip.availableSeats) ∧
    (k < 0 → trip.availableSeats < trip.availableSeats - k) := by
  have hgd : data.passengerCount.getD 1 = k := by rw [hk]; rfl
  rw [book_trip_success_eq st tid trip data newId now hfind hpos]
  rw [hgd]
  refine ⟨rfl, rfl, ?_, fun h0 => by omega, fun hneg => by omega⟩
  have := find?_updateFirstTrip hfind
    (fun t => { t with availableSeats := t.availableSeats - k }) rfl
  simpa using this

/-- C10 witness: booking seed trip "1" (3 seats) with
`passengerCount = -2` succeeds and raises the seat count to 5. -/
theorem c10_witness :
    (book_trip initialState "1" ⟨none, some (-2)⟩ "w10-bk" "w10-t").1 =
      BookResponse.created 201 "Trip booked successfully"
        { id := "w10-bk", tripId := "1",
          userId := (BookRequest.mk none (some (-2))).userId.getD "demo-user",
          passengerCount := -2, status := "confirmed", bookingTime := "w10-t",
          totalPrice := trip1.pricePerPerson * ((-2 : Int) : ℚ) } ∧
    (book_trip initialState "1" ⟨none, some (-2)⟩ "w10-bk" "w10-t").2.bookings =
      initialState.bookings ++
        [{ id := "w10-bk", tripId := "1",
           userId := (BookRequest.mk none (some (-2))).userId.getD "demo-user",
           passengerCount := -2, status := "confirmed", bookingTime := "w10-t",
           totalPrice := trip1.pricePerPerson * ((-2 : Int) : ℚ) }] ∧
    (book_trip initialState "1" ⟨none, some (-2)⟩ "w10-bk" "w10-t").2.trips.find?
      (fun t => t.id == "1") =
      some { trip1 with availableSeats := trip1.availableSeats - (-2) } ∧
    ((-2 : Int) = 0 → trip1.availableSeats - (-2) = trip1.availableSeats) ∧
    ((-2 : Int) < 0 → trip1.availableSeats < trip1.availableSeats - (-2)) :=
  c10_nonpositive_count initialState "1" trip1 ⟨none, some (-2)⟩ (-2) "w10-bk" "w10-t"
    rfl (by decide) rfl (by decide)
